import Mathlib

/-!
Verification of the protocol and state-machine cores of the ATWhiteLight
control package: the chiller ASCII protocol (checksum, reply framing,
reply routing, telemetry-group aggregation, watchdog cascade) and the
lamp state machine (interlocks, unexpected-off detection, shutter logic).

All definitions are shallow embeddings of the Python source:

  python/lsst/ts/atwhitelight/chiller_client.py
  python/lsst/ts/atwhitelight/chiller_model.py
  python/lsst/ts/atwhitelight/mock_chiller.py
  python/lsst/ts/atwhitelight/lamp_base.py
  python/lsst/ts/atwhitelight/lamp_model.py

Strings are modelled as lists of characters or byte values, machine
floats as rationals, coroutine effects (topic publishes, hardware
writes, issued subcommands) as explicit result records.
-/


namespace AtWhiteLight

/-! ### Hexadecimal rendering, as Python builtins produce it

Python `hex(n)` (for nonnegative `n`) yields `"0x"` followed by the
lowercase hex digits of `n` with no leading zeros (`hex(0) = "0x0"`).
Python `f"{n:0{w}X}"` yields the uppercase digits zero-padded on the
left to width `w`. We model digits lists with a fuel-based recursion so
that every definition evaluates by kernel reduction. -/

/-- Lowercase hexadecimal digit character, as used by Python `hex()`. -/
def hexDigitChar (n : Nat) : Char :=
  if n < 10 then Char.ofNat (48 + n) else Char.ofNat (87 + n)

/-- Uppercase hexadecimal digit character, as used by Python `"%X"` formatting. -/
def hexDigitCharUpper (n : Nat) : Char :=
  if n < 10 then Char.ofNat (48 + n) else Char.ofNat (55 + n)

/-- Hex digits of `n`, least significant first, for a given digit
rendering; `fuel` bounds the recursion depth (any `fuel > n` suffices). -/
def hexRevAux (dig : Nat → Char) : Nat → Nat → List Char
  | 0, _ => []
  | fuel + 1, n =>
    if n < 16 then [dig n] else dig (n % 16) :: hexRevAux dig fuel (n / 16)

/-- Hex digits of `n`, least significant first. -/
def hexDigitsRev (dig : Nat → Char) (n : Nat) : List Char :=
  hexRevAux dig (n + 1) n

/-- Hex digit string of `n` (most significant first, no leading zeros;
`0` renders as `"0"`). -/
def hexStr (dig : Nat → Char) (n : Nat) : List Char :=
  (hexDigitsRev dig n).reverse

/-- Python `hex(n)` for a nonnegative integer: `"0x"` followed by the
lowercase digits. -/
def pyHex (n : Nat) : List Char :=
  '0' :: 'x' :: hexStr hexDigitChar n

/-- Python slicing `s[-2:]`: the last two characters (the whole string
when it is shorter than two characters). -/
def lastTwo (l : List Char) : List Char :=
  l.drop (l.length - 2)

/-! ### ChillerClient.compute_checksum (chiller_client.py lines 149-175)

The source checks the string is pure ASCII, sums the character
ordinals, and returns `hex(total)[-2:]`. We model the string as its
list of byte values (the ASCII condition appears as a hypothesis). -/

/-- Embedding of `ChillerClient.compute_checksum`: sum the byte values
and take the last two characters of the Python hex rendering. -/
def compute_checksum (st : List Nat) : List Char :=
  lastTwo (pyHex st.sum)

/-- The byte-sum modulo 256, rendered as exactly two lowercase hex
digits; this is what the specification says the checksum equals. -/
def renderLowByte (n : Nat) : List Char :=
  [hexDigitChar ((n % 256) / 16), hexDigitChar ((n % 256) % 16)]

end AtWhiteLight

namespace AtWhiteLight

/-! ### MockChiller.format_mask and the reversed-nibble decode
(mock_chiller.py lines 152-163, chiller_model.py lines 544-553) -/

/-- Python zero left-padding to width `w` (no truncation when longer). -/
def leftPad (w : Nat) (c : Char) (l : List Char) : List Char :=
  List.replicate (w - l.length) c ++ l

/-- Embedding of `MockChiller.format_mask`: format `value` as `ndig`
zero-padded uppercase hex digits, then reverse the string (the
hardware's reversed-nibble mask encoding). -/
def format_mask (value ndig : Nat) : List Char :=
  (leftPad ndig '0' (hexStr hexDigitCharUpper value)).reverse

/-- Value of one hex character, as Python `int(s, 16)` accepts them
(digits plus either case of letters); `none` on anything else. -/
def hexCharVal (c : Char) : Option Nat :=
  if '0' ≤ c ∧ c ≤ '9' then some (c.toNat - 48)
  else if 'a' ≤ c ∧ c ≤ 'f' then some (c.toNat - 87)
  else if 'A' ≤ c ∧ c ≤ 'F' then some (c.toNat - 55)
  else none

/-- One step of hex parsing in the `Option` state. -/
def hexFoldOpt (acc : Option Nat) (c : Char) : Option Nat :=
  match acc, hexCharVal c with
  | some a, some v => some (a * 16 + v)
  | _, _ => none

/-- One step of hex parsing for strings already known valid. -/
def hexFoldNat (a : Nat) (c : Char) : Nat :=
  a * 16 + (hexCharVal c).getD 0

/-- Embedding of Python `int(s, 16)` restricted to plain hex strings:
fails on the empty string or on any non-hex character. -/
def hexParse (l : List Char) : Option Nat :=
  if l = [] then none else l.foldl hexFoldOpt (some 0)

/-- Total parse of a valid hex string, used to compute `hexParse`. -/
def hexParseNat (l : List Char) : Nat :=
  l.foldl hexFoldNat 0

end AtWhiteLight


namespace AtWhiteLight

/-! ### ChillerModel reply handling (chiller_model.py lines 41-59, 484-516, 739-790) -/

namespace ChillerModel

/-- Embedding of the `ERROR_CODES` table (chiller_model.py lines 52-59). -/
def ERROR_CODES (c : Char) : Option String :=
  match c with
  | '0' => some ""
  | '1' => some "checksum error"
  | '2' => some "invalid command name"
  | '3' => some "parameter out of range"
  | '4' => some "invalid message length"
  | '5' => some "sensor or feature not configured or used"
  | _ => none

/-- The command IDs registered in `self.reply_handlers`
(chiller_model.py lines 124-166). -/
def replyHandlerIds : List String :=
  ["01", "03", "04", "07", "08", "09", "10", "11", "13", "15", "16", "17",
   "18", "19", "20", "21", "22", "23", "24", "25", "26", "27", "28", "29",
   "30", "50", "51", "52", "53"]

/-- Outcome of `ChillerModel.handle_reply`: either the reply is ignored
with a logged warning (invalid format or unsupported command ID), or it
is dispatched to the handler registered for its command ID together
with the data portion `reply[14:]`. -/
inductive HandleReplyOutcome where
  | ignored (reason : String)
  | handledBy (cmdId : String) (data : List Char)
deriving DecidableEq, Repr

/-- Embedding of `ChillerModel.handle_reply` (lines 484-516): reject a
reply whose first character is not the hash mark, or that is under 14
characters; otherwise extract `cmd_id = reply[3:5]` and dispatch to the
registered handler, ignoring unsupported command IDs. -/
def handle_reply (reply : List Char) : HandleReplyOutcome :=
  if reply.headD ' ' ≠ '#' then .ignored "first char not #"
  else if reply.length < 14 then .ignored "too short"
  else
    let cmd_id := String.mk ((reply.drop 3).take 2)
    if cmd_id ∈ replyHandlerIds then .handledBy cmd_id (reply.drop 14)
    else .ignored "unsupported cmd_id"

/-- Outcome of `ChillerModel.run_command` once the transport has
produced a reply: either an exception is raised with the given message,
or the reply is passed on to `handle_reply`. -/
inductive RunCommandOutcome where
  | raised (msg : String)
  | replyHandled (outcome : HandleReplyOutcome)
deriving DecidableEq, Repr

/-- Embedding of the reply-checking part of `ChillerModel.run_command`
(lines 769-790): replies under 14 characters raise; a nonzero error
digit `reply[5]` raises with the `ERROR_CODES` description (default
"Unrecognized error code"); otherwise the reply goes to `handle_reply`. -/
def run_command (cmd : String) (reply : List Char) : RunCommandOutcome :=
  if reply.length < 14 then
    .raised ("Command " ++ cmd ++ " failed: reply=" ++ String.mk reply)
  else
    let error_code := reply.getD 5 ' '
    if error_code ≠ '0' then
      .raised (("Command " ++ cmd ++ " failed: " ++ String.mk [error_code] ++ ": ")
        ++ (ERROR_CODES error_code).getD "Unrecognized error code")
    else .replyHandled (handle_reply reply)

end ChillerModel

end AtWhiteLight


namespace AtWhiteLight

/-! ### Telemetry-group aggregation (chiller_model.py lines 530-603, 544-571)

Each multi-field group keeps a set of seen field names; a reply handler
inserts its field into the set, publishes (writes) the topic when the
set reaches the expected count, and then resets the set to empty. The
topic field values themselves do not influence the flush logic and are
omitted here. -/

namespace ChillerModel

/-- Field names of `tel_chillerTemperatures` for which read-temperature
reply handlers are registered (command IDs 03, 04, 07, 08). -/
inductive TempField where
  | setTemperature | supplyTemperature | returnTemperature | ambientTemperature
deriving DecidableEq, Repr

/-- Field names of `tel_chillerTECBankCurrents` (command IDs 10, 11). -/
inductive TecField where
  | bank1 | bank2
deriving DecidableEq, Repr

/-- Field names of `evt_chillerAlarms` filled by the level-1 and
level-2 alarm reply handlers. -/
inductive AlarmField where
  | level1 | level21 | level22
deriving DecidableEq, Repr

/-- Embedding of `READ_RETURN_TEMPERATURE` (chiller_model.py line 63). -/
def READ_RETURN_TEMPERATURE : Bool := false

/-- Embedding of `NUM_READ_TEMPERATURES` (chiller_model.py line 65). -/
def NUM_READ_TEMPERATURES : Nat := if READ_RETURN_TEMPERATURE then 4 else 3

/-- Number of entries of `FAN_NUMBERS = (1, 2, 3, 4)` (line 67). -/
def NUM_FANS : Nat := 4

/-- Common seen-set update of the multi-field reply handlers: insert
the field, and if the flush condition holds on the new cardinality,
publish (first component true) and reset the set to empty. -/
def flushStep {α : Type} [DecidableEq α] (flushAt : Nat → Bool)
    (seen : Finset α) (field : α) : Bool × Finset α :=
  let seen2 := insert field seen
  if flushAt seen2.card then (true, (∅ : Finset α)) else (false, seen2)

/-- Seen-set dynamics of `ChillerModel.handle_read_fan_speed` (lines
530-542): flush when the seen set has `len(FAN_NUMBERS) = 4` entries. -/
def handle_read_fan_speed (seen : Finset (Fin 4)) (fan_num : Fin 4) :
    Bool × Finset (Fin 4) :=
  flushStep (fun n => decide (n = NUM_FANS)) seen fan_num

/-- Seen-set dynamics of `ChillerModel.handle_read_temperature` (lines
597-603): flush when the seen set has `NUM_READ_TEMPERATURES` entries. -/
def handle_read_temperature (seen : Finset TempField) (field_name : TempField) :
    Bool × Finset TempField :=
  flushStep (fun n => decide (n = NUM_READ_TEMPERATURES)) seen field_name

/-- Seen-set dynamics of `ChillerModel.handle_read_tec_bank_currents`
(lines 578-584): flush when the seen set has at least 2 entries. -/
def handle_read_tec_bank_currents (seen : Finset TecField) (field_name : TecField) :
    Bool × Finset TecField :=
  flushStep (fun n => decide (2 ≤ n)) seen field_name

/-- Seen-set dynamics shared by `ChillerModel.handle_read_l1_alarms`
and `ChillerModel.handle_read_l2_alarms` (lines 544-571) when the
handled field is valid: flush when the seen set has 3 entries. -/
def handle_read_alarms (seen : Finset AlarmField) (field_name : AlarmField) :
    Bool × Finset AlarmField :=
  flushStep (fun n => decide (n = 3)) seen field_name

/-- Run a sequence of multi-field reply handlers from a given seen set,
returning the number of topic publishes and the final seen set. -/
def runFlushSteps {α : Type} [DecidableEq α] (flushAt : Nat → Bool)
    (seen : Finset α) : List α → Nat × Finset α
  | [] => (0, seen)
  | field :: rest =>
    let r := flushStep flushAt seen field
    let restResult := runFlushSteps flushAt r.2 rest
    (restResult.1 + (if r.1 then 1 else 0), restResult.2)

end ChillerModel

end AtWhiteLight


namespace AtWhiteLight

namespace ChillerModel

instance : Fintype TecField where
  elems := {TecField.bank1, TecField.bank2}
  complete := by intro x; cases x <;> decide

end ChillerModel

end AtWhiteLight


namespace AtWhiteLight

/-! ### The watchdog cascade (chiller_model.py lines 627-667) -/

namespace ChillerModel

/-- Command body sent by `ChillerModel.do_read_l1_alarms` (line 303). -/
def do_read_l1_alarms : String := "18rAlrmLv1"

/-- Command body sent by `ChillerModel.do_read_l2_alarms` (line 316)
for a given sublevel. -/
def do_read_l2_alarms (sublevel : Nat) : String :=
  "19rAlrmLv2" ++ toString sublevel

/-- Command body sent by `ChillerModel.do_read_warnings` (line 356). -/
def do_read_warnings : String := "20rWarnLv1"

/-- Effects of `ChillerModel.handle_watchdog` after the watchdog data
has been decoded: whether `seen_alarms` was reset, which follow-up
read command bodies were issued, and the zeroed alarm and warning
records published (as `(level1, level21, level22)` and `warnings`). -/
structure WatchdogEffects where
  seenAlarmsReset : Bool
  alarmReads : List String
  alarmsPublished : Option (Nat × Nat × Nat)
  warningReads : List String
  warningsPublished : Option Nat
deriving DecidableEq, Repr

/-- Embedding of the cascade portion of `ChillerModel.handle_watchdog`
(lines 649-664), given the decoded `alarmsPresent` and
`warningsPresent` booleans (a decode failure takes this path with both
booleans true, "assuming the worst"). -/
def handle_watchdog (alarmsPresent warningsPresent : Bool) : WatchdogEffects :=
  { seenAlarmsReset := alarmsPresent
    alarmReads :=
      if alarmsPresent then
        [do_read_l1_alarms, do_read_l2_alarms 1, do_read_l2_alarms 2]
      else []
    alarmsPublished := if alarmsPresent then none else some (0, 0, 0)
    warningReads := if warningsPresent then [do_read_warnings] else []
    warningsPublished := if warningsPresent then none else some 0 }

end ChillerModel

end AtWhiteLight


namespace AtWhiteLight

/-! ### The lamp model (lamp_base.py, lamp_model.py)

Times, voltages and powers are modelled as rationals; the LabJack and
topic writes performed by a call are returned explicitly. -/

namespace Lamp

/-- Embedding of `MIN_POWER` (lamp_base.py line 82). -/
def MIN_POWER : ℚ := 800

/-- Embedding of `MAX_POWER` (lamp_base.py line 83). -/
def MAX_POWER : ℚ := 1200

/-- Embedding of `VOLTS_AT_MIN_POWER` (lamp_base.py line 84). -/
def VOLTS_AT_MIN_POWER : ℚ := 1961 / 1000

/-- Embedding of `VOLTS_AT_MAX_POWER` (lamp_base.py line 85). -/
def VOLTS_AT_MAX_POWER : ℚ := 5

/-- Embedding of `VOLTS_PER_WATT` (lamp_base.py line 86). -/
def VOLTS_PER_WATT : ℚ := (VOLTS_AT_MAX_POWER - VOLTS_AT_MIN_POWER) / (MAX_POWER - MIN_POWER)

/-- Embedding of `LAMP_SET_VOLTAGE_ON_THRESHOLD` (lamp_model.py line 65). -/
def LAMP_SET_VOLTAGE_ON_THRESHOLD : ℚ := VOLTS_AT_MIN_POWER - 1 / 10

/-- Embedding of `voltage_from_power` (lamp_base.py lines 89-118):
0 maps to 0, out-of-range powers raise (`none`), and in-range powers
map linearly onto the KiloArc control voltage. -/
def voltage_from_power (power : ℚ) : Option ℚ :=
  if power = 0 then some 0
  else if power < MIN_POWER ∨ MAX_POWER < power then none
  else some ((power - MIN_POWER) * VOLTS_PER_WATT + VOLTS_AT_MIN_POWER)

/-- Embedding of `SHUTTER_ENABLE` (lamp_base.py line 50). -/
def SHUTTER_ENABLE : Nat := 0

/-- Embedding of `SHUTTER_DISABLE` (lamp_base.py line 51). -/
def SHUTTER_DISABLE : Nat := 1

/-- Embedding of `SHUTTER_OPEN` (lamp_base.py line 53). -/
def SHUTTER_OPEN : Nat := 0

/-- Embedding of `SHUTTER_CLOSE` (lamp_base.py line 54). -/
def SHUTTER_CLOSE : Nat := 1

/-- Embedding of the `ShutterState` enum used by the lamp model. -/
inductive ShutterState where
  | unknown | closed | opened | invalid
deriving DecidableEq, Repr

/-- Embedding of the shutter-state table of `LampModel.status_loop`
(lamp_model.py lines 438-443), keyed by the closed and open switch
inputs. -/
def shutter_state_from_switches (shutter_closed shutter_open : Bool) : ShutterState :=
  match shutter_closed, shutter_open with
  | false, false => .unknown
  | true, false => .closed
  | false, true => .opened
  | true, true => .invalid

/-- Outcome of the entry checks of `LampModel.move_shutter`
(lamp_model.py lines 672-694): return immediately when already in the
desired state, raise `ExpectedError` when the published actual state is
INVALID, or proceed, whose first LabJack write sets the shutter
direction output. -/
inductive MoveShutterOutcome where
  | alreadyDone
  | raisedInvalid
  | proceeded (shutter_direction : Nat)
deriving DecidableEq, Repr

/-- Embedding of the entry checks of `LampModel.move_shutter`:
`has_data`, `commandedState` and `actualState` describe the last
published `evt_shutterState` sample. -/
def move_shutter (has_data : Bool) (commandedState actualState : ShutterState)
    (do_open : Bool) : MoveShutterOutcome :=
  let desired_state := if do_open then ShutterState.opened else ShutterState.closed
  if has_data = true ∧ commandedState = desired_state ∧ actualState = desired_state then
    .alreadyDone
  else if has_data = true ∧ actualState = .invalid then
    .raisedInvalid
  else
    .proceeded (if do_open then SHUTTER_OPEN else SHUTTER_CLOSE)

end Lamp

end AtWhiteLight


namespace AtWhiteLight

namespace Lamp

/-- The slice of the lamp configuration that the state machine uses
(all durations in seconds). -/
structure LampConfig where
  warmup_period : ℚ
  cooldown_period : ℚ
  max_lamp_on_delay : ℚ
  max_lamp_off_delay : ℚ
deriving DecidableEq, Repr

/-- State of an asyncio future as the lamp model uses them: pending
(not done), resolved with a result, or failed with an exception. -/
inductive FutureState where
  | pending | succeeded | failed
deriving DecidableEq, Repr

/-- Embedding of `future.set_result(None)` guarded by `future.done()`. -/
def set_result_if_pending (f : FutureState) : FutureState :=
  if f = .pending then .succeeded else f

/-- Embedding of `LampModel.abort_lamp_on_future` and
`LampModel.abort_lamp_off_future` (lamp_model.py lines 241-263):
fail the future with `ExpectedError` if it is not done. -/
def abort_if_pending (f : FutureState) : FutureState :=
  if f = .pending then .failed else f

/-- Mutable state of `LampModel` relevant to the lamp on/off logic.
`lamp_was_on` is `none` before the first `set_status` call, mirroring
the `None` initialisation in the source. -/
structure LampState where
  lamp_was_on : Option Bool
  lamp_unexpectedly_off : Bool
  lamp_unexpectedly_on : Bool
  lamp_on_time : ℚ
  lamp_off_time : ℚ
  lamp_on_future : FutureState
  lamp_off_future : FutureState
deriving DecidableEq, Repr

/-- Embedding of the `LampBasicState` enum values used by the model. -/
inductive LampBasicState where
  | unknown | lampOff | turningOn | warmup | lampOn
  | turningOff | cooldown | unexpectedlyOn | unexpectedlyOff
deriving DecidableEq, Repr

/-- Embedding of `LampModel.get_remaining_cooldown` (lines 621-638). -/
def get_remaining_cooldown (cfg : LampConfig) (st : LampState) (tai : ℚ) : ℚ :=
  if st.lamp_off_time = 0 then 0
  else max 0 (cfg.cooldown_period - (tai - st.lamp_off_time))

/-- Embedding of `LampModel.get_remaining_warmup` (lines 640-653). -/
def get_remaining_warmup (cfg : LampConfig) (st : LampState) (tai : ℚ) : ℚ :=
  if st.lamp_on_time = 0 then 0
  else max 0 (cfg.warmup_period - (tai - st.lamp_on_time))

/-- Result of one `LampModel.set_status` call: the new model state,
the derived basic state, the lamp-on duration reported (0 when none),
and the voltages written to the LabJack lamp power output during the
call. -/
structure SetStatusResult where
  state : LampState
  basicState : LampBasicState
  onSeconds : ℚ
  powerWrites : List ℚ
deriving DecidableEq, Repr

/-- Embedding of `LampModel.set_status` (lamp_model.py lines 470-619).
The controller error and controller state arguments only flow into the
published event, not into the state logic, and are omitted; the
published topic fields other than `basicState` are likewise omitted. -/
def set_status (cfg : LampConfig) (connected : Bool) (st : LampState)
    (light_detected : Bool) (read_lamp_set_voltage : ℚ) (current_tai : ℚ) :
    SetStatusResult :=
  let lamp_commanded_on : Bool :=
    decide (LAMP_SET_VOLTAGE_ON_THRESHOLD < read_lamp_set_voltage)
  if connected = false then
    let basic := if 0 < get_remaining_cooldown cfg st current_tai then
        LampBasicState.cooldown else LampBasicState.unknown
    { state := { st with
        lamp_on_future := abort_if_pending st.lamp_on_future
        lamp_off_future := abort_if_pending st.lamp_off_future }
      basicState := basic
      onSeconds := 0
      powerWrites := [] }
  else
    let stepA : LampState × ℚ :=
      match st.lamp_was_on with
      | none =>
        let st1 := { st with lamp_was_on := some lamp_commanded_on }
        if lamp_commanded_on = true ∧ st.lamp_on_time = 0 then
          ({ st1 with lamp_on_time := current_tai - cfg.warmup_period }, 0)
        else (st1, 0)
      | some was =>
        if lamp_commanded_on = true then
          if was = false ∧ st.lamp_unexpectedly_off = false then
            ({ st with lamp_was_on := some true, lamp_on_time := current_tai }, 0)
          else (st, 0)
        else
          if was = true ∧ st.lamp_unexpectedly_on = false then
            ({ st with lamp_was_on := some false, lamp_off_time := current_tai },
              current_tai - st.lamp_on_time)
          else (st, 0)
    let st1 := stepA.1
    let stepB : LampState × LampBasicState × ℚ :=
      if st1.lamp_was_on = some true then
        if light_detected = false then
          if cfg.max_lamp_on_delay < current_tai - st1.lamp_on_time then
            ({ st1 with
                lamp_unexpectedly_off := true
                lamp_was_on := some false
                lamp_off_time := 0 },
              LampBasicState.unexpectedlyOff, current_tai - st1.lamp_on_time)
          else (st1, LampBasicState.turningOn, stepA.2)
        else if 0 < get_remaining_warmup cfg st1 current_tai then
          (st1, LampBasicState.warmup, stepA.2)
        else (st1, LampBasicState.lampOn, stepA.2)
      else
        if light_detected = true then
          if cfg.max_lamp_off_delay < current_tai - st1.lamp_off_time then
            ({ st1 with lamp_unexpectedly_on := true, lamp_off_time := 0 },
              LampBasicState.unexpectedlyOn, stepA.2)
          else (st1, LampBasicState.turningOff, stepA.2)
        else if 0 < get_remaining_cooldown cfg st1 current_tai then
          (st1, LampBasicState.cooldown, stepA.2)
        else (st1, LampBasicState.lampOff, stepA.2)
    let st2 := stepB.1
    let basic := stepB.2.1
    let st3 :=
      match basic with
      | LampBasicState.lampOn | LampBasicState.warmup =>
        { st2 with lamp_on_future := set_result_if_pending st2.lamp_on_future }
      | LampBasicState.unexpectedlyOff =>
        { st2 with lamp_on_future := abort_if_pending st2.lamp_on_future }
      | LampBasicState.lampOff | LampBasicState.cooldown =>
        { st2 with lamp_off_future := set_result_if_pending st2.lamp_off_future }
      | LampBasicState.unexpectedlyOn =>
        { st2 with lamp_off_future := abort_if_pending st2.lamp_off_future }
      | _ => st2
    let powerWrites := if st3.lamp_unexpectedly_off = true then [(0 : ℚ)] else []
    { state := st3
      basicState := basic
      onSeconds := stepB.2.2
      powerWrites := powerWrites }

/-- Outcome of `LampModel.turn_lamp_on` up to the point of writing the
lamp power: either one of the three `ExpectedError` rejections, or the
call proceeds to `_set_lamp_power power` (the only LabJack write). -/
inductive TurnLampOnOutcome where
  | raisedAlreadyTurningOn
  | raisedPowerOutOfRange
  | raisedCooling
  | proceeded (power : ℚ)
deriving DecidableEq, Repr

/-- Embedding of the entry checks of `LampModel.turn_lamp_on`
(lamp_model.py lines 716-756). -/
def turn_lamp_on (cfg : LampConfig) (st : LampState) (power : ℚ) (tai : ℚ) :
    TurnLampOnOutcome :=
  if st.lamp_on_future = .pending then .raisedAlreadyTurningOn
  else if power < MIN_POWER ∨ MAX_POWER < power then .raisedPowerOutOfRange
  else if 0 < get_remaining_cooldown cfg st tai then .raisedCooling
  else .proceeded power

/-- Outcome of `LampModel.turn_lamp_off` up to the point of writing
zero power: silent return when the lamp is not recorded on, await of an
off operation already in flight, the warmup `ExpectedError`, or the
call proceeds to `_set_lamp_power 0`. -/
inductive TurnLampOffOutcome where
  | returnedNotOn
  | awaitedExistingOff
  | raisedWarmup
  | proceeded (power : ℚ)
deriving DecidableEq, Repr

/-- Embedding of `LampModel.turn_lamp_off` (lamp_model.py lines
758-806) up to the zero-power write (the `wait` argument only affects
what happens after that write). -/
def turn_lamp_off (cfg : LampConfig) (st : LampState) (force : Bool) (tai : ℚ) :
    TurnLampOffOutcome :=
  if st.lamp_was_on ≠ some true then .returnedNotOn
  else if st.lamp_off_future = .pending then .awaitedExistingOff
  else
    let on_duration := tai - st.lamp_on_time
    let remaining_warmup_duration := cfg.warmup_period - on_duration
    if 0 < remaining_warmup_duration ∧ force = false then .raisedWarmup
    else .proceeded 0

end Lamp

end AtWhiteLight


/-! ## Theorems -/

namespace AtWhiteLight

/-! ### Helper lemmas about the hex rendering -/

theorem hexRevAux_fuel_irrel (dig : Nat → Char) :
    ∀ f1 f2 n, n < f1 → n < f2 → hexRevAux dig f1 n = hexRevAux dig f2 n := by
  intro f1
  induction f1 with
  | zero => intro f2 n h1; omega
  | succ f ih =>
    intro f2 n h1 h2
    cases f2 with
    | zero => omega
    | succ g =>
      simp only [hexRevAux]
      by_cases hlt : n < 16
      · simp [hlt]
      · simp only [hlt, if_false]
        have hn : 0 < n := by omega
        have hdiv : n / 16 < n := Nat.div_lt_self hn (by norm_num)
        exact congrArg _ (ih g (n / 16) (by omega) (by omega))

theorem hexDigitsRev_of_lt (dig : Nat → Char) {n : Nat} (h : n < 16) :
    hexDigitsRev dig n = [dig n] := by
  simp [hexDigitsRev, hexRevAux, h]

theorem hexDigitsRev_of_ge (dig : Nat → Char) {n : Nat} (h : 16 ≤ n) :
    hexDigitsRev dig n = dig (n % 16) :: hexDigitsRev dig (n / 16) := by
  have hlt : ¬ n < 16 := by omega
  have hn : 0 < n := by omega
  have hdiv : n / 16 < n := Nat.div_lt_self hn (by norm_num)
  simp only [hexDigitsRev, hexRevAux, hlt, if_false]
  exact congrArg _ (hexRevAux_fuel_irrel dig n (n / 16 + 1) (n / 16) (by omega) (by omega))

theorem hexDigitsRev_structure (dig : Nat → Char) {n : Nat} (h : 16 ≤ n) :
    ∃ rest, hexDigitsRev dig n = dig (n % 16) :: dig ((n / 16) % 16) :: rest := by
  rw [hexDigitsRev_of_ge dig h]
  by_cases hq : n / 16 < 16
  · refine ⟨[], ?_⟩
    rw [hexDigitsRev_of_lt dig hq, Nat.mod_eq_of_lt hq]
  · refine ⟨hexDigitsRev dig (n / 16 / 16), ?_⟩
    rw [hexDigitsRev_of_ge dig (by omega)]

/-! ### Claim C1: the checksum -/

/-- Claim C1 (amended): for every ASCII string whose byte sum is at
least 16, `ChillerClient.compute_checksum` returns the sum modulo 256
rendered as the low two (lowercase) hex digits, obtained by taking the
last two characters of the Python hexadecimal representation of the
possibly-greater-than-0xFF sum. The restriction to sums of at least 16
is forced: below 16 the Python rendering has a single digit and the
slice picks up the letter x of the 0x prefix. -/
theorem compute_checksum_is_low_byte (s : List Nat)
    (hascii : ∀ b ∈ s, b < 128) (hsum : 16 ≤ s.sum) :
    compute_checksum s = renderLowByte s.sum := by
  obtain ⟨rest, hrest⟩ := hexDigitsRev_structure hexDigitChar hsum
  unfold compute_checksum lastTwo pyHex hexStr renderLowByte
  rw [hrest]
  have hlist :
      ('0' :: 'x' ::
          (hexDigitChar (s.sum % 16) ::
            hexDigitChar ((s.sum / 16) % 16) :: rest).reverse) =
        ('0' :: 'x' :: rest.reverse) ++
          [hexDigitChar ((s.sum / 16) % 16), hexDigitChar (s.sum % 16)] := by
    simp
  rw [hlist]
  have hlen : (('0' :: 'x' :: rest.reverse) ++
        [hexDigitChar ((s.sum / 16) % 16), hexDigitChar (s.sum % 16)]).length - 2 =
      ('0' :: 'x' :: rest.reverse).length := by
    simp
  rw [hlen, List.drop_left]
  have h1 : s.sum % 256 / 16 = s.sum / 16 % 16 := by
    rw [show (256 : Nat) = 16 * 16 from rfl, Nat.mod_mul_right_div_self]
  have h2 : s.sum % 256 % 16 = s.sum % 16 :=
    Nat.mod_mod_of_dvd s.sum (by norm_num)
  rw [h1, h2]

/-- Witness for C1: the device-ID prefix ".01" (byte values 46, 48, 49,
sum 143 = 0x8f) has checksum "8f". -/
theorem compute_checksum_is_low_byte_witness :
    (∀ b ∈ [46, 48, 49], b < 128) ∧ 16 ≤ List.sum [46, 48, 49] ∧
      compute_checksum [46, 48, 49] = renderLowByte (List.sum [46, 48, 49]) :=
  ⟨by decide, by decide, compute_checksum_is_low_byte [46, 48, 49] (by decide) (by decide)⟩

/-- Counterexample for C1 as stated: on the empty ASCII string the byte
sum is 0, Python hex(0) is the three characters 0x0, and the final
slice of two characters is x0, which is not the two-hex-digit rendering
00 of 0 mod 256. -/
theorem compute_checksum_empty_counterexample :
    compute_checksum [] ≠ renderLowByte (List.sum []) ∧
      compute_checksum [] = ['x', '0'] := by
  constructor
  · decide
  · decide

end AtWhiteLight


namespace AtWhiteLight

theorem hexFoldOpt_eq_some (l : List Char) :
    ∀ a : Nat, (∀ c ∈ l, (hexCharVal c).isSome = true) →
      l.foldl hexFoldOpt (some a) = some (l.foldl hexFoldNat a) := by
  induction l with
  | nil => intro a _; rfl
  | cons c t ih =>
    intro a hvalid
    have hc : (hexCharVal c).isSome = true := hvalid c (by simp)
    obtain ⟨v, hv⟩ := Option.isSome_iff_exists.mp hc
    have hstep : hexFoldOpt (some a) c = some (hexFoldNat a c) := by
      simp [hexFoldOpt, hexFoldNat, hv]
    simp only [List.foldl_cons, hstep]
    exact ih (hexFoldNat a c) (fun d hd => hvalid d (by simp [hd]))

theorem hexFoldNat_init (l : List Char) :
    ∀ a : Nat, l.foldl hexFoldNat a = a * 16 ^ l.length + l.foldl hexFoldNat 0 := by
  induction l with
  | nil => intro a; simp
  | cons c t ih =>
    intro a
    simp only [List.foldl_cons, List.length_cons]
    rw [ih (hexFoldNat a c), ih (hexFoldNat 0 c)]
    simp only [hexFoldNat]
    ring

theorem hexFoldNat_replicate_zero (k : Nat) :
    (List.replicate k '0').foldl hexFoldNat 0 = 0 := by
  induction k with
  | zero => rfl
  | succ n ih =>
    rw [List.replicate_succ]
    simp only [List.foldl_cons]
    have h0 : hexFoldNat 0 '0' = 0 := by decide
    rw [h0, ih]

theorem hexCharVal_upper_digit :
    ∀ k : Nat, k < 16 → hexCharVal (hexDigitCharUpper k) = some k := by
  decide

theorem hexRevAux_mem (dig : Nat → Char) :
    ∀ (fuel n : Nat), ∀ c ∈ hexRevAux dig fuel n, ∃ m, m < 16 ∧ c = dig m := by
  intro fuel
  induction fuel with
  | zero => intro n c hc; simp [hexRevAux] at hc
  | succ f ih =>
    intro n c hc
    by_cases hlt : n < 16
    · simp [hexRevAux, hlt] at hc
      exact ⟨n, hlt, hc⟩
    · simp only [hexRevAux, hlt, if_false, List.mem_cons] at hc
      rcases hc with hc | hc
      · exact ⟨n % 16, Nat.mod_lt n (by norm_num), hc⟩
      · exact ih (n / 16) c hc

theorem hexDigitsRev_ne_nil (dig : Nat → Char) (n : Nat) :
    hexDigitsRev dig n ≠ [] := by
  by_cases h : n < 16
  · rw [hexDigitsRev_of_lt dig h]; simp
  · rw [hexDigitsRev_of_ge dig (by omega)]; simp

theorem hexParseNat_hexStr_upper (n : Nat) :
    hexParseNat (hexStr hexDigitCharUpper n) = n := by
  induction n using Nat.strong_induction_on with
  | _ n ih =>
    by_cases h : n < 16
    · unfold hexStr
      rw [hexDigitsRev_of_lt _ h]
      simp [hexParseNat, hexFoldNat, hexCharVal_upper_digit n h]
    · unfold hexStr
      rw [hexDigitsRev_of_ge _ (by omega)]
      have hdiv : n / 16 < n := Nat.div_lt_self (by omega) (by norm_num)
      have hrec := ih (n / 16) hdiv
      unfold hexParseNat hexStr at hrec
      unfold hexParseNat
      rw [List.reverse_cons, List.foldl_append]
      simp only [List.foldl_cons, List.foldl_nil, hexFoldNat,
        hexCharVal_upper_digit (n % 16) (Nat.mod_lt n (by norm_num)),
        Option.getD_some, hrec]
      omega

/-! ### Claim C9: reversed-nibble mask round trip -/

/-- Claim C9: for every value representable in `ndig` hex digits,
decoding as `ChillerModel.handle_read_l1_alarms` does (reverse the
string, then parse it as a hex integer) the string produced by
`MockChiller.format_mask` (format as `ndig` zero-padded uppercase hex
digits, then reverse) recovers the value. -/
theorem format_mask_roundtrip (value ndig : Nat) (h : value < 16 ^ ndig) :
    hexParse ((format_mask value ndig).reverse) = some value := by
  unfold format_mask
  rw [List.reverse_reverse]
  unfold leftPad
  set S := hexStr hexDigitCharUpper value with hS
  have hSne : S ≠ [] := by
    rw [hS]
    unfold hexStr
    simpa using hexDigitsRev_ne_nil hexDigitCharUpper value
  have hne : List.replicate (ndig - S.length) '0' ++ S ≠ [] := by
    intro hc
    exact hSne (List.append_eq_nil.mp hc).2
  unfold hexParse
  rw [if_neg hne]
  have hvalid : ∀ c ∈ List.replicate (ndig - S.length) '0' ++ S,
      (hexCharVal c).isSome = true := by
    intro c hc
    rcases List.mem_append.mp hc with hc | hc
    · rw [List.eq_of_mem_replicate hc]
      decide
    · rw [hS] at hc
      unfold hexStr at hc
      have hc2 := List.mem_reverse.mp hc
      obtain ⟨m, hm, rfl⟩ := hexRevAux_mem hexDigitCharUpper _ _ c hc2
      rw [hexCharVal_upper_digit m hm]
      rfl
  rw [hexFoldOpt_eq_some _ 0 hvalid]
  rw [List.foldl_append, hexFoldNat_replicate_zero]
  exact congrArg some (hexParseNat_hexStr_upper value)

/-- Witness for C9: the specification example value 0x12 with 4 digits
formats to "2100" and decodes back to 0x12 = 18. -/
theorem format_mask_roundtrip_witness :
    18 < 16 ^ 4 ∧ format_mask 18 4 = ['2', '1', '0', '0'] ∧
      hexParse ((format_mask 18 4).reverse) = some 18 :=
  ⟨by decide, by decide, format_mask_roundtrip 18 4 (by decide)⟩

end AtWhiteLight


namespace AtWhiteLight

namespace ChillerModel

/-! ### Claims C6 and C8: reply rejection -/

/-- Claim C6: for every reply of length at least 14 whose error digit
(character at index 5) is not "0", `ChillerModel.run_command` raises an
error whose message ends with the `ERROR_CODES` description of the
digit (1 = checksum error, 2 = invalid command name, 3 = parameter out
of range, 4 = invalid message length, 5 = sensor or feature not
configured or used), and no reply handler is invoked, so the data
portion is never decoded. -/
theorem run_command_device_rejection (cmd : String) (reply : List Char)
    (hlen : 14 ≤ reply.length) (herr : reply.getD 5 ' ' ≠ '0') :
    run_command cmd reply =
      .raised (("Command " ++ cmd ++ " failed: " ++ String.mk [reply.getD 5 ' '] ++ ": ")
        ++ (ERROR_CODES (reply.getD 5 ' ')).getD "Unrecognized error code")
    ∧ (∀ o, run_command cmd reply ≠ .replyHandled o)
    ∧ ERROR_CODES '1' = some "checksum error"
    ∧ ERROR_CODES '2' = some "invalid command name"
    ∧ ERROR_CODES '3' = some "parameter out of range"
    ∧ ERROR_CODES '4' = some "invalid message length"
    ∧ ERROR_CODES '5' = some "sensor or feature not configured or used" := by
  have hnotlt : ¬ reply.length < 14 := by omega
  have herr2 : ¬ (reply[5]?.getD ' ' = '0') := by
    simpa [List.getD] using herr
  refine ⟨?_, ?_, rfl, rfl, rfl, rfl, rfl⟩
  · simp [run_command, hnotlt, herr2, List.getD]
  · intro o hcontra
    simp [run_command, hnotlt, herr2, List.getD] at hcontra

/-- Witness for C6: a 14-character watchdog reply with error digit 1 is
rejected with the checksum-error description and is never handled. -/
theorem run_command_device_rejection_witness :
    14 ≤ ("#01011WatchDog".data).length ∧
      run_command "01WatchDog" "#01011WatchDog".data =
        .raised "Command 01WatchDog failed: 1: checksum error" := by
  refine ⟨by decide, ?_⟩
  have h := (run_command_device_rejection "01WatchDog" "#01011WatchDog".data
    (by decide) (by decide)).1
  exact h.trans (by decide)

/-- Claim C8: every reply whose leading character is not the hash mark,
or whose length is under 14, is treated as invalid by
`ChillerModel.handle_reply` (ignored with a format warning), and no
reply handler for any command ID is invoked on it. -/
theorem handle_reply_rejects_bad_format (reply : List Char)
    (hne : reply ≠ [])
    (hbad : reply.headD ' ' ≠ '#' ∨ reply.length < 14) :
    (handle_reply reply = .ignored "first char not #" ∨
      handle_reply reply = .ignored "too short")
    ∧ ∀ cmdId data, handle_reply reply ≠ .handledBy cmdId data := by
  by_cases hh : reply.headD ' ' = '#'
  · have hlen : reply.length < 14 := by tauto
    have hh2 : reply.head?.getD ' ' = '#' := by
      simpa [List.headD_eq_head?] using hh
    constructor
    · right
      simp [handle_reply, hh2, hlen]
    · intro c d hcontra
      simp [handle_reply, hh2, hlen] at hcontra
  · have hh2 : ¬ (reply.head?.getD ' ' = '#') := by
      simpa [List.headD_eq_head?] using hh
    constructor
    · left
      simp [handle_reply, hh2]
    · intro c d hcontra
      simp [handle_reply, hh2] at hcontra

/-- Witness for C8: a reply not starting with the hash mark is ignored
as invalid. -/
theorem handle_reply_rejects_bad_format_witness :
    ("bad".data ≠ ([] : List Char)) ∧
      (handle_reply "bad".data = .ignored "first char not #" ∨
        handle_reply "bad".data = .ignored "too short") :=
  ⟨by decide, (handle_reply_rejects_bad_format "bad".data (by decide) (Or.inl (by decide))).1⟩

end ChillerModel

end AtWhiteLight


namespace AtWhiteLight

namespace ChillerModel

theorem flushStep_eq_iff {α : Type} [DecidableEq α] (e : Nat)
    (seen : Finset α) (f : α) :
    (flushStep (fun n => decide (n = e)) seen f).1 = true ↔
      (insert f seen).card = e := by
  unfold flushStep
  by_cases h : (insert f seen).card = e <;> simp [h]

theorem flushStep_reset {α : Type} [DecidableEq α] (flushAt : Nat → Bool)
    (seen : Finset α) (f : α) :
    (flushStep flushAt seen f).1 = true → (flushStep flushAt seen f).2 = ∅ := by
  unfold flushStep
  by_cases h : flushAt (insert f seen).card <;> simp [h]

theorem flushStep_tec_iff (seen : Finset TecField) (f : TecField) :
    (flushStep (fun n => decide (2 ≤ n)) seen f).1 = true ↔
      (insert f seen).card = 2 := by
  have hle : (insert f seen).card ≤ 2 := by
    have h := Finset.card_le_univ (insert f seen)
    have hcard : Fintype.card TecField = 2 := by decide
    omega
  unfold flushStep
  by_cases h : 2 ≤ (insert f seen).card
  · simp [h]
    omega
  · simp [h]
    omega

theorem runFlushSteps_no_flush {α : Type} [DecidableEq α]
    (flushAt : Nat → Bool) (e : Nat)
    (hflush : ∀ n, flushAt n = true → e ≤ n) :
    ∀ (fields : List α) (seen : Finset α),
      (seen ∪ fields.toFinset).card < e →
      runFlushSteps flushAt seen fields = (0, seen ∪ fields.toFinset) := by
  intro fields
  induction fields with
  | nil =>
    intro seen h
    simp [runFlushSteps]
  | cons f rest ih =>
    intro seen h
    have hsub : insert f seen ⊆ seen ∪ (f :: rest).toFinset := by
      intro x hx
      rcases Finset.mem_insert.mp hx with rfl | hx
      · simp [List.toFinset_cons]
      · exact Finset.mem_union_left _ hx
    have hcard : (insert f seen).card < e :=
      lt_of_le_of_lt (Finset.card_le_card hsub) h
    have hnot : flushAt (insert f seen).card = false := by
      by_contra hc
      have htrue : flushAt (insert f seen).card = true := by
        revert hc
        cases flushAt (insert f seen).card <;> simp
      exact absurd (hflush _ htrue) (by omega)
    have hunion : insert f seen ∪ rest.toFinset = seen ∪ (f :: rest).toFinset := by
      simp [List.toFinset_cons, Finset.insert_union, Finset.union_insert]
    have hrec := ih (insert f seen) (by rw [hunion]; exact h)
    have hstep : flushStep flushAt seen f = (false, insert f seen) := by
      unfold flushStep
      simp [hnot]
    simp only [runFlushSteps, hstep]
    rw [hrec]
    simp [hunion]


end ChillerModel

end AtWhiteLight


namespace AtWhiteLight

namespace ChillerModel

/-- Claim C2: for each multi-field telemetry group (4 fan speeds,
`NUM_READ_TEMPERATURES` = 3 read temperatures, 2 TEC bank currents, 3
alarm fields) the reply handler publishes the topic exactly when the
seen set reaches the expected count and then immediately resets it to
empty; and any sequence of handler calls from an empty seen set that
covers fewer distinct fields than the expected count publishes
nothing. -/
theorem telemetry_groups_flush_exactly_at_count :
    (∀ (seen : Finset (Fin 4)) (f : Fin 4),
      ((handle_read_fan_speed seen f).1 = true ↔ (insert f seen).card = NUM_FANS)
      ∧ ((handle_read_fan_speed seen f).1 = true → (handle_read_fan_speed seen f).2 = ∅))
    ∧ (∀ fields : List (Fin 4), fields.toFinset.card < NUM_FANS →
      runFlushSteps (fun n => decide (n = NUM_FANS)) ∅ fields = (0, fields.toFinset))
    ∧ (∀ (seen : Finset TempField) (f : TempField),
      ((handle_read_temperature seen f).1 = true ↔
        (insert f seen).card = NUM_READ_TEMPERATURES)
      ∧ ((handle_read_temperature seen f).1 = true → (handle_read_temperature seen f).2 = ∅))
    ∧ (∀ fields : List TempField, fields.toFinset.card < NUM_READ_TEMPERATURES →
      runFlushSteps (fun n => decide (n = NUM_READ_TEMPERATURES)) ∅ fields =
        (0, fields.toFinset))
    ∧ (∀ (seen : Finset TecField) (f : TecField),
      ((handle_read_tec_bank_currents seen f).1 = true ↔ (insert f seen).card = 2)
      ∧ ((handle_read_tec_bank_currents seen f).1 = true →
        (handle_read_tec_bank_currents seen f).2 = ∅))
    ∧ (∀ fields : List TecField, fields.toFinset.card < 2 →
      runFlushSteps (fun n => decide (2 ≤ n)) ∅ fields = (0, fields.toFinset))
    ∧ (∀ (seen : Finset AlarmField) (f : AlarmField),
      ((handle_read_alarms seen f).1 = true ↔ (insert f seen).card = 3)
      ∧ ((handle_read_alarms seen f).1 = true → (handle_read_alarms seen f).2 = ∅))
    ∧ (∀ fields : List AlarmField, fields.toFinset.card < 3 →
      runFlushSteps (fun n => decide (n = 3)) ∅ fields = (0, fields.toFinset)) := by
  have heq : ∀ e : Nat, ∀ n : Nat, (decide (n = e)) = true → e ≤ n := by
    intro e n h
    have := of_decide_eq_true h
    omega
  have hge : ∀ n : Nat, (decide (2 ≤ n)) = true → 2 ≤ n := fun n h =>
    of_decide_eq_true h
  refine ⟨?_, ?_, ?_, ?_, ?_, ?_, ?_, ?_⟩
  · intro seen f
    exact ⟨flushStep_eq_iff NUM_FANS seen f, flushStep_reset _ seen f⟩
  · intro fields h
    have := runFlushSteps_no_flush (fun n => decide (n = NUM_FANS)) NUM_FANS
      (heq NUM_FANS) fields ∅ (by simpa using h)
    simpa using this
  · intro seen f
    exact ⟨flushStep_eq_iff NUM_READ_TEMPERATURES seen f, flushStep_reset _ seen f⟩
  · intro fields h
    have := runFlushSteps_no_flush (fun n => decide (n = NUM_READ_TEMPERATURES))
      NUM_READ_TEMPERATURES (heq NUM_READ_TEMPERATURES) fields ∅ (by simpa using h)
    simpa using this
  · intro seen f
    exact ⟨flushStep_tec_iff seen f, flushStep_reset _ seen f⟩
  · intro fields h
    have := runFlushSteps_no_flush (fun n => decide (2 ≤ n)) 2 hge fields ∅
      (by simpa using h)
    simpa using this
  · intro seen f
    exact ⟨flushStep_eq_iff 3 seen f, flushStep_reset _ seen f⟩
  · intro fields h
    have := runFlushSteps_no_flush (fun n => decide (n = 3)) 3 (heq 3) fields ∅
      (by simpa using h)
    simpa using this

/-- Witness for C2: handling fan speeds 1, 2 and 3 (and 2 again) from a
fresh state publishes nothing, and handling two distinct alarm fields
publishes nothing. -/
theorem telemetry_groups_flush_witness :
    (([0, 1, 2, 1] : List (Fin 4)).toFinset.card < NUM_FANS ∧
      runFlushSteps (fun n => decide (n = NUM_FANS)) ∅ ([0, 1, 2, 1] : List (Fin 4)) =
        (0, ([0, 1, 2, 1] : List (Fin 4)).toFinset)) ∧
    (([AlarmField.level1, AlarmField.level21] : List AlarmField).toFinset.card < 3 ∧
      runFlushSteps (fun n => decide (n = 3)) ∅
          [AlarmField.level1, AlarmField.level21] =
        (0, ([AlarmField.level1, AlarmField.level21] : List AlarmField).toFinset)) :=
  ⟨⟨by decide, telemetry_groups_flush_exactly_at_count.2.1 [0, 1, 2, 1] (by decide)⟩,
   ⟨by decide, telemetry_groups_flush_exactly_at_count.2.2.2.2.2.2.2
      [AlarmField.level1, AlarmField.level21] (by decide)⟩⟩

end ChillerModel

end AtWhiteLight


namespace AtWhiteLight

namespace ChillerModel

/-- Claim C3: when the decoded watchdog reply has `alarmsPresent=true`,
`handle_watchdog` resets the seen-alarms set and issues exactly the
three follow-up alarm reads (level-1 alarms, level-2 sublevel 1,
level-2 sublevel 2) and publishes no alarm record; with
`alarmsPresent=false` it publishes the zeroed alarm record
`(level1=0, level21=0, level22=0)` and issues no alarm read; likewise
`warningsPresent=true` issues exactly one warnings read, and
`warningsPresent=false` publishes `warnings=0` with no read. -/
theorem handle_watchdog_cascade :
    (∀ w : Bool,
      (handle_watchdog true w).seenAlarmsReset = true
      ∧ (handle_watchdog true w).alarmReads =
          ["18rAlrmLv1", "19rAlrmLv21", "19rAlrmLv22"]
      ∧ (handle_watchdog true w).alarmsPublished = none)
    ∧ (∀ w : Bool,
      (handle_watchdog false w).alarmReads = []
      ∧ (handle_watchdog false w).alarmsPublished = some (0, 0, 0))
    ∧ (∀ a : Bool,
      (handle_watchdog a true).warningReads = ["20rWarnLv1"]
      ∧ (handle_watchdog a true).warningsPublished = none)
    ∧ (∀ a : Bool,
      (handle_watchdog a false).warningReads = []
      ∧ (handle_watchdog a false).warningsPublished = some 0) := by
  refine ⟨fun w => ⟨rfl, ?_, rfl⟩, fun w => ⟨rfl, rfl⟩,
    fun a => ⟨rfl, rfl⟩, fun a => ⟨rfl, rfl⟩⟩
  simp only [handle_watchdog, do_read_l1_alarms, do_read_l2_alarms,
    do_read_warnings, if_true]
  decide

end ChillerModel

end AtWhiteLight


namespace AtWhiteLight

namespace Lamp

/-- Claim C7: simultaneous active shutter switches map to the INVALID
shutter state, and a `move_shutter` call in either direction, made
while the last published actual state is INVALID, raises
`ExpectedError` without performing any LabJack write (the outcome is
neither already-done nor proceeded, and only the proceeded branch
writes to output channels). -/
theorem move_shutter_invalid_raises :
    shutter_state_from_switches true true = .invalid
    ∧ ∀ (do_open : Bool) (commandedState : ShutterState),
        move_shutter true commandedState .invalid do_open = .raisedInvalid := by
  refine ⟨rfl, ?_⟩
  intro do_open commandedState
  cases do_open <;> cases commandedState <;> rfl

end Lamp

end AtWhiteLight


namespace AtWhiteLight

namespace Lamp

theorem voltage_from_power_in_range {p : ℚ}
    (h1 : MIN_POWER ≤ p) (h2 : p ≤ MAX_POWER) :
    voltage_from_power p =
      some ((p - MIN_POWER) * VOLTS_PER_WATT + VOLTS_AT_MIN_POWER) := by
  have hnz : ¬ (p = 0) := by
    intro hc
    rw [hc] at h1
    norm_num [MIN_POWER] at h1
  have hr : ¬ (p < MIN_POWER ∨ MAX_POWER < p) := by
    push_neg
    exact ⟨h1, h2⟩
  simp [voltage_from_power, hnz, hr]

theorem volts_per_watt_pos : 0 < VOLTS_PER_WATT := by
  norm_num [VOLTS_PER_WATT, VOLTS_AT_MAX_POWER, VOLTS_AT_MIN_POWER, MAX_POWER, MIN_POWER]

/-- Claim C10: `voltage_from_power 0` is exactly 0; on the interval
[800, 1200] W the returned voltage increases strictly monotonically
from `VOLTS_AT_MIN_POWER` (1.961 V) at 800 W to `VOLTS_AT_MAX_POWER`
(5 V) at 1200 W; every voltage the function can return is either 0 or
strictly above `LAMP_SET_VOLTAGE_ON_THRESHOLD`, so the
commanded-on predicate `set voltage > threshold` used by
`LampModel.set_status` is never ambiguous for a commanded value. -/
theorem voltage_from_power_spec :
    voltage_from_power 0 = some 0
    ∧ voltage_from_power MIN_POWER = some VOLTS_AT_MIN_POWER
    ∧ voltage_from_power MAX_POWER = some VOLTS_AT_MAX_POWER
    ∧ (∀ p1 p2 v1 v2, MIN_POWER ≤ p1 → p1 < p2 → p2 ≤ MAX_POWER →
        voltage_from_power p1 = some v1 → voltage_from_power p2 = some v2 →
        v1 < v2)
    ∧ (∀ p v, voltage_from_power p = some v →
        v = 0 ∨ LAMP_SET_VOLTAGE_ON_THRESHOLD < v)
    ∧ (∀ p v, voltage_from_power p = some v →
        (decide (LAMP_SET_VOLTAGE_ON_THRESHOLD < v) = true ↔ v ≠ 0)) := by
  have hbelow : ∀ p v, voltage_from_power p = some v →
      v = 0 ∨ LAMP_SET_VOLTAGE_ON_THRESHOLD < v := by
    intro p v hv
    by_cases hz : p = 0
    · left
      rw [hz] at hv
      simp [voltage_from_power] at hv
      exact hv.symm
    · by_cases hr : p < MIN_POWER ∨ MAX_POWER < p
      · exfalso
        simp [voltage_from_power, hz, hr] at hv
      · right
        push_neg at hr
        rw [voltage_from_power_in_range hr.1 hr.2] at hv
        have hv2 : (p - MIN_POWER) * VOLTS_PER_WATT + VOLTS_AT_MIN_POWER = v :=
          Option.some.inj hv
        have hnn : 0 ≤ (p - MIN_POWER) * VOLTS_PER_WATT :=
          mul_nonneg (by linarith [hr.1]) (le_of_lt volts_per_watt_pos)
        have hthr : LAMP_SET_VOLTAGE_ON_THRESHOLD < VOLTS_AT_MIN_POWER := by
          norm_num [LAMP_SET_VOLTAGE_ON_THRESHOLD, VOLTS_AT_MIN_POWER]
        linarith
  refine ⟨by simp [voltage_from_power], ?_, ?_, ?_, hbelow, ?_⟩
  · rw [voltage_from_power_in_range le_rfl
      (by norm_num [MIN_POWER, MAX_POWER])]
    norm_num
  · rw [voltage_from_power_in_range (by norm_num [MIN_POWER, MAX_POWER]) le_rfl]
    norm_num [VOLTS_PER_WATT, VOLTS_AT_MAX_POWER, VOLTS_AT_MIN_POWER, MAX_POWER, MIN_POWER]
  · intro p1 p2 v1 v2 hp1 hlt hp2 hv1 hv2
    rw [voltage_from_power_in_range hp1 (by linarith)] at hv1
    rw [voltage_from_power_in_range (by linarith) hp2] at hv2
    have e1 := Option.some.inj hv1
    have e2 := Option.some.inj hv2
    have hmul : (p1 - MIN_POWER) * VOLTS_PER_WATT < (p2 - MIN_POWER) * VOLTS_PER_WATT :=
      mul_lt_mul_of_pos_right (by linarith) volts_per_watt_pos
    linarith
  · intro p v hv
    constructor
    · intro hdec hv0
      have hlt := of_decide_eq_true hdec
      rw [hv0] at hlt
      norm_num [LAMP_SET_VOLTAGE_ON_THRESHOLD, VOLTS_AT_MIN_POWER] at hlt
    · intro hne
      rcases hbelow p v hv with h0 | hthr
      · exact absurd h0 hne
      · exact decide_eq_true hthr

end Lamp

end AtWhiteLight


namespace AtWhiteLight

namespace Lamp

/-- Witness for C10: 900 W and 950 W are both in range and the
commanded voltage at 900 W is strictly below the one at 950 W. -/
theorem voltage_from_power_spec_witness :
    MIN_POWER ≤ (900 : ℚ) ∧ (900 : ℚ) < 950 ∧ (950 : ℚ) ≤ MAX_POWER ∧
      ((900 - MIN_POWER) * VOLTS_PER_WATT + VOLTS_AT_MIN_POWER <
        (950 - MIN_POWER) * VOLTS_PER_WATT + VOLTS_AT_MIN_POWER) := by
  refine ⟨by norm_num [MIN_POWER], by norm_num, by norm_num [MAX_POWER], ?_⟩
  exact voltage_from_power_spec.2.2.2.1 900 950 _ _
    (by norm_num [MIN_POWER]) (by norm_num) (by norm_num [MAX_POWER])
    (voltage_from_power_in_range (by norm_num [MIN_POWER])
      (by norm_num [MIN_POWER, MAX_POWER]))
    (voltage_from_power_in_range (by norm_num [MIN_POWER])
      (by norm_num [MIN_POWER, MAX_POWER]))

/-- Claim C4 (amended): `turn_lamp_on` raises `ExpectedError` before
writing any power whenever the on-future is pending, the power is
outside [800, 1200] W, or the remaining cooldown is positive; and,
provided the lamp is recorded as on and no turn-off operation is
pending, `turn_lamp_off` with force=false raises `ExpectedError`
whenever the remaining warmup duration is positive, while force=true
proceeds to command power 0 in that same situation. The provisos on
`turn_lamp_off` are forced: when `lamp_was_on` is falsy the call
returns silently, and when the off-future is pending it merely awaits
it. -/
theorem lamp_onoff_interlocks :
    (∀ (cfg : LampConfig) (st : LampState) (power tai : ℚ),
      (st.lamp_on_future = .pending ∨ power < MIN_POWER ∨ MAX_POWER < power ∨
          0 < get_remaining_cooldown cfg st tai) →
        (turn_lamp_on cfg st power tai = .raisedAlreadyTurningOn ∨
          turn_lamp_on cfg st power tai = .raisedPowerOutOfRange ∨
          turn_lamp_on cfg st power tai = .raisedCooling)
        ∧ ∀ w, turn_lamp_on cfg st power tai ≠ .proceeded w)
    ∧ (∀ (cfg : LampConfig) (st : LampState) (tai : ℚ),
      st.lamp_was_on = some true → st.lamp_off_future ≠ .pending →
      0 < cfg.warmup_period - (tai - st.lamp_on_time) →
        turn_lamp_off cfg st false tai = .raisedWarmup
        ∧ turn_lamp_off cfg st true tai = .proceeded 0) := by
  constructor
  · intro cfg st power tai hdisj
    have hmain : turn_lamp_on cfg st power tai = .raisedAlreadyTurningOn ∨
        turn_lamp_on cfg st power tai = .raisedPowerOutOfRange ∨
        turn_lamp_on cfg st power tai = .raisedCooling := by
      unfold turn_lamp_on
      by_cases h1 : st.lamp_on_future = FutureState.pending
      · left
        simp [h1]
      · by_cases h2 : power < MIN_POWER ∨ MAX_POWER < power
        · right; left
          simp [h1, h2]
        · by_cases h3 : 0 < get_remaining_cooldown cfg st tai
          · right; right
            simp [h1, h2, h3]
          · exfalso
            rcases hdisj with h | h | h | h
            · exact h1 h
            · exact h2 (Or.inl h)
            · exact h2 (Or.inr h)
            · exact h3 h
    refine ⟨hmain, ?_⟩
    intro w hw
    rcases hmain with h | h | h <;> rw [h] at hw <;> exact TurnLampOnOutcome.noConfusion hw
  · intro cfg st tai hwas hoff hwarm
    have hnot : ¬ (st.lamp_was_on ≠ some true) := by
      simp [hwas]
    constructor
    · unfold turn_lamp_off
      rw [if_neg hnot, if_neg hoff]
      simp [hwarm]
    · unfold turn_lamp_off
      rw [if_neg hnot, if_neg hoff]
      simp

/-- Witness for C4 (amended): a concrete state in which the lamp is on
and still warming up; a power of 100 W is rejected as out of range, a
non-forced turn-off is rejected, and a forced turn-off writes 0. -/
theorem lamp_onoff_interlocks_witness :
    ((100 : ℚ) < MIN_POWER ∧
      (turn_lamp_on ⟨900, 900, 60, 60⟩
          ⟨some true, false, false, 100, 0, .succeeded, .succeeded⟩ 100 200 =
            .raisedAlreadyTurningOn ∨
        turn_lamp_on ⟨900, 900, 60, 60⟩
          ⟨some true, false, false, 100, 0, .succeeded, .succeeded⟩ 100 200 =
            .raisedPowerOutOfRange ∨
        turn_lamp_on ⟨900, 900, 60, 60⟩
          ⟨some true, false, false, 100, 0, .succeeded, .succeeded⟩ 100 200 =
            .raisedCooling))
    ∧ (turn_lamp_off ⟨900, 900, 60, 60⟩
        ⟨some true, false, false, 100, 0, .succeeded, .succeeded⟩ false 200 =
          .raisedWarmup
      ∧ turn_lamp_off ⟨900, 900, 60, 60⟩
        ⟨some true, false, false, 100, 0, .succeeded, .succeeded⟩ true 200 =
          .proceeded 0) :=
  ⟨⟨by norm_num [MIN_POWER],
    (lamp_onoff_interlocks.1 ⟨900, 900, 60, 60⟩
      ⟨some true, false, false, 100, 0, .succeeded, .succeeded⟩ 100 200
      (Or.inr (Or.inl (by norm_num [MIN_POWER])))).1⟩,
   lamp_onoff_interlocks.2 ⟨900, 900, 60, 60⟩
     ⟨some true, false, false, 100, 0, .succeeded, .succeeded⟩ 200
     rfl (by simp) (by norm_num)⟩

/-- Counterexample for C4 as stated: with the lamp not recorded as on
(`lamp_was_on = some false`) but a recent `lamp_on_time`, the remaining
warmup duration is positive, yet `turn_lamp_off` with force=false
returns silently instead of raising. -/
theorem turn_lamp_off_warmup_counterexample :
    0 < (900 : ℚ) - ((200 : ℚ) - 100)
    ∧ turn_lamp_off ⟨900, 900, 60, 60⟩
        ⟨some false, false, false, 100, 0, .succeeded, .succeeded⟩ false 200 =
          .returnedNotOn
    ∧ turn_lamp_off ⟨900, 900, 60, 60⟩
        ⟨some false, false, false, 100, 0, .succeeded, .succeeded⟩ false 200 ≠
          .raisedWarmup := by
  refine ⟨by norm_num, ?_, ?_⟩
  · simp [turn_lamp_off]
  · simp [turn_lamp_off]

end Lamp

end AtWhiteLight


namespace AtWhiteLight

namespace Lamp

/-- Claim C5: in any connected `set_status` step where the lamp is
recorded as commanded on (`lamp_was_on = some true` and the read-back
set voltage is above the threshold), no light is detected, and more
than `max_lamp_on_delay` seconds have elapsed since `lamp_on_time`,
the resulting basic state is UNEXPECTEDLY_OFF, `lamp_unexpectedly_off`
is latched, `lamp_off_time` is reset to 0 (so no cooldown timer
starts), the pending turn-on future is failed, the commanded lamp
power is written back to 0 within the same step, and the lamp-on
duration is reported. -/
theorem set_status_unexpectedly_off (cfg : LampConfig) (st : LampState)
    (voltage tai : ℚ)
    (hwas : st.lamp_was_on = some true)
    (hcmd : LAMP_SET_VOLTAGE_ON_THRESHOLD < voltage)
    (hdelay : cfg.max_lamp_on_delay < tai - st.lamp_on_time) :
    (set_status cfg true st false voltage tai).basicState = .unexpectedlyOff
    ∧ (set_status cfg true st false voltage tai).state.lamp_unexpectedly_off = true
    ∧ (set_status cfg true st false voltage tai).state.lamp_off_time = 0
    ∧ (set_status cfg true st false voltage tai).powerWrites = [0]
    ∧ (set_status cfg true st false voltage tai).state.lamp_on_future =
        abort_if_pending st.lamp_on_future
    ∧ (st.lamp_on_future = .pending →
        (set_status cfg true st false voltage tai).state.lamp_on_future = .failed)
    ∧ (set_status cfg true st false voltage tai).onSeconds = tai - st.lamp_on_time := by
  have hcmdd : decide (LAMP_SET_VOLTAGE_ON_THRESHOLD < voltage) = true :=
    decide_eq_true hcmd
  have hset : set_status cfg true st false voltage tai =
      { state := { st with
          lamp_unexpectedly_off := true
          lamp_was_on := some false
          lamp_off_time := 0
          lamp_on_future := abort_if_pending st.lamp_on_future }
        basicState := .unexpectedlyOff
        onSeconds := tai - st.lamp_on_time
        powerWrites := [0] } := by
    simp [set_status, hcmdd, hwas, hdelay]
  refine ⟨by rw [hset], by rw [hset], by rw [hset], by rw [hset], by rw [hset], ?_,
    by rw [hset]⟩
  intro hpending
  rw [hset]
  simp [abort_if_pending, hpending]

/-- Witness for C5: a concrete connected poll step with the lamp
commanded on at 5 V, no light detected, and 100 seconds elapsed
against a 60 second `max_lamp_on_delay`. -/
theorem set_status_unexpectedly_off_witness :
    (LAMP_SET_VOLTAGE_ON_THRESHOLD < (5 : ℚ) ∧ (60 : ℚ) < 200 - 100)
    ∧ ((set_status ⟨900, 900, 60, 60⟩ true
          ⟨some true, false, false, 100, 0, .pending, .succeeded⟩
          false 5 200).basicState = .unexpectedlyOff
      ∧ (set_status ⟨900, 900, 60, 60⟩ true
          ⟨some true, false, false, 100, 0, .pending, .succeeded⟩
          false 5 200).state.lamp_off_time = 0
      ∧ (set_status ⟨900, 900, 60, 60⟩ true
          ⟨some true, false, false, 100, 0, .pending, .succeeded⟩
          false 5 200).powerWrites = [0]
      ∧ (set_status ⟨900, 900, 60, 60⟩ true
          ⟨some true, false, false, 100, 0, .pending, .succeeded⟩
          false 5 200).state.lamp_on_future = .failed) := by
  have hthr : LAMP_SET_VOLTAGE_ON_THRESHOLD < (5 : ℚ) := by
    norm_num [LAMP_SET_VOLTAGE_ON_THRESHOLD, VOLTS_AT_MIN_POWER]
  have h := set_status_unexpectedly_off ⟨900, 900, 60, 60⟩
    ⟨some true, false, false, 100, 0, .pending, .succeeded⟩ 5 200
    rfl hthr (by norm_num)
  exact ⟨⟨hthr, by norm_num⟩, h.1, h.2.2.1, h.2.2.2.1, h.2.2.2.2.2.1 rfl⟩

end Lamp

end AtWhiteLight

